import Mathlib

/-!
Shallow embedding of the VirtualGL faker's global shutdown machinery and
per-thread interception state (src/server/faker.cpp) and of the
rrdisplayserver test-harness CLI (src/rr/rrdisplayserverut.cpp), with
theorems checking the specified behaviour of shutdown, the thread-local
faker enable/disable counters, excluded-display matching, and the test
harness's argument handling.
-/

namespace VGL

/-! ## Definitions: strings, as the C string functions see them -/

/-- ASCII lowercasing of one character, as C `tolower` acts on the
uppercase letters in the default locale. -/
def lowerChar (c : Char) : Char :=
  if 'A' ≤ c ∧ c ≤ 'Z' then Char.ofNat (c.toNat + 32) else c

/-- Case-insensitive string equality: `strcasecmp(a, b) == 0` (also
spelled `stricmp` in the rr sources). -/
def strcasecmpEq (a b : List Char) : Bool :=
  a.map lowerChar == b.map lowerChar

/-- Length-bounded case-insensitive equality: `strnicmp(a, b, n) == 0`.
The comparison also stops where either C string ends, so two strings of
different length below `n` compare unequal (the terminator differs from
any further character). -/
def strniEq : Nat → List Char → List Char → Bool
  | 0, _, _ => true
  | _ + 1, [], [] => true
  | _ + 1, [], _ :: _ => false
  | _ + 1, _ :: _, [] => false
  | n + 1, a :: as, b :: bs => lowerChar a = lowerChar b && strniEq n as bs

/-- The delimiter set `", \t"` that `isDisplayStringExcluded` hands to
`strtok`. -/
def isDelim (c : Char) : Bool := c = ',' || c = ' ' || c = '\t'

/-- Worker for `strtokAll`: `cur` is the (reversed) token being read. -/
def tokenizeAux : List Char → List Char → List (List Char)
  | [], cur => if cur.isEmpty then [] else [cur.reverse]
  | c :: cs, cur =>
    if isDelim c then
      if cur.isEmpty then tokenizeAux cs [] else cur.reverse :: tokenizeAux cs []
    else tokenizeAux cs (c :: cur)

/-- All tokens a `strtok(…, ", \t")` loop yields: the maximal non-empty
runs of non-delimiter characters, in order. -/
def strtokAll (s : List Char) : List (List Char) :=
  tokenizeAux s []

/-- C `isspace` on the default locale, as `atoi` skips leading blanks. -/
def isCSpace (c : Char) : Bool :=
  c = ' ' || c = '\t' || c = '\n' || c = '\x0b' || c = '\x0c' || c = '\r'

/-- The digit-accumulation loop of C `atoi`: consume leading decimal
digits into `acc`, stopping at the first non-digit. -/
def atoiDigits : List Char → Nat → Nat
  | [], acc => acc
  | c :: cs, acc =>
    if c.isDigit then atoiDigits cs (acc * 10 + (c.toNat - 48)) else acc

/-- C `atoi`: skip leading whitespace, take an optional sign, then
accumulate leading decimal digits (zero when there are none). -/
def atoi (s : List Char) : Int :=
  match s.dropWhile isCSpace with
  | '-' :: rest => -(atoiDigits rest 0 : Int)
  | '+' :: rest => (atoiDigits rest 0 : Int)
  | rest => (atoiDigits rest 0 : Int)

/-! ## Definitions: faker.cpp global shutdown machinery -/

/-- Modelled from the spec: a per-resource-class Resource Registry
(`PixmapHash`, `VisualHash`, `ContextHash`, `GLXDrawableHash`,
`WindowHash`).  The class bodies (`isAlloc`, `kill`) live in headers that
are not among the sampled sources; per the spec, `kill()` releases all
entries and the table itself.  The `releases` field instruments how many
release actions have been performed on this registry. -/
structure Registry where
  allocated : Bool
  entries : List Nat
  releases : Nat
deriving DecidableEq

/-- The `isAlloc()` query of a registry class. -/
def Registry.isAlloc (r : Registry) : Bool := r.allocated

/-- Modelled from the spec: `kill()` releases all entries and the table
itself, leaving the registry unallocated. -/
def Registry.kill (r : Registry) : Registry :=
  { allocated := false, entries := [], releases := r.releases + 1 }

/-- One guarded teardown line of `cleanup()`:
`if(XxxHash::isAlloc()) xxxhash.kill();`. -/
def killIfAlloc (r : Registry) : Registry :=
  if r.isAlloc then r.kill else r

/-- A registry that has never been allocated. -/
def Registry.fresh : Registry := { allocated := false, entries := [], releases := 0 }

/-- The global state of faker.cpp that the shutdown machinery touches:
the `deadYet` flag, the five registries torn down by `cleanup()` (the
non-EGL build), the buffered `glExtensions` string and loaded symbols, and
the FakerConfig singleton.  `cleanupCalls` and `fconfigDeleteCalls`
instrument how many times `cleanup()` and `fconfig_deleteinstance()` have
run. -/
structure FakerState where
  deadYet : Bool
  pmhash : Registry
  vishash : Registry
  ctxhash : Registry
  glxdhash : Registry
  winhash : Registry
  glExtensions : Bool
  symbolsLoaded : Bool
  fconfigAlive : Bool
  cleanupCalls : Nat
  fconfigDeleteCalls : Nat
deriving DecidableEq

/-- `static void cleanup(void)` of faker.cpp: kill each registry that
`isAlloc()` reports allocated, free the buffered extension string, unload
the interposed symbols. -/
def cleanup (s : FakerState) : FakerState :=
  { s with
    pmhash := killIfAlloc s.pmhash
    vishash := killIfAlloc s.vishash
    ctxhash := killIfAlloc s.ctxhash
    glxdhash := killIfAlloc s.glxdhash
    winhash := killIfAlloc s.winhash
    glExtensions := false
    symbolsLoaded := false
    cleanupCalls := s.cleanupCalls + 1 }

/-- Modelled from the spec: `fconfig_deleteinstance()` (declared in
fakerconfig.h, body not among the sampled sources) deletes the FakerConfig
singleton, releasing globally buffered configuration state. -/
def fconfig_deleteinstance (s : FakerState) : FakerState :=
  { s with fconfigAlive := false, fconfigDeleteCalls := s.fconfigDeleteCalls + 1 }

/-- How a call to `safeExit` leaves the calling thread: the whole process
exits with a return code (`exit(retcode)`), or only the calling thread
terminates (`pthread_exit(0)`). -/
inductive Outcome where
  | exitProcess : Int → Outcome
  | exitThread : Outcome
deriving DecidableEq

/-- `void safeExit(int retcode)` of faker.cpp, run under `globalMutex`:
snapshot `deadYet` into `shutdown`; if `deadYet` is still false, set it,
run `cleanup()` and `fconfig_deleteinstance()`; finally `exit(retcode)`
when the snapshot was false, else `pthread_exit(0)`. -/
def safeExit (retcode : Int) (s : FakerState) : FakerState × Outcome :=
  let shutdown := s.deadYet
  let s₁ :=
    if s.deadYet = false then
      fconfig_deleteinstance (cleanup { s with deadYet := true })
    else s
  (s₁, if shutdown = false then Outcome.exitProcess retcode else Outcome.exitThread)

/-- `GlobalCleanup::~GlobalCleanup()` of faker.cpp, run when static
destructors fire at process exit: under the global critical section it
calls `fconfig_deleteinstance(gcs)` and sets `deadYet = true`, without
checking `deadYet` first. -/
def globalCleanupDtor (s : FakerState) : FakerState :=
  { fconfig_deleteinstance s with deadYet := true }

/-- The state at the start of the process: `deadYet = false`, no registry
allocated yet, `glExtensions = NULL`, the config singleton alive, nothing
torn down yet. -/
def initialFakerState : FakerState :=
  { deadYet := false
    pmhash := Registry.fresh
    vishash := Registry.fresh
    ctxhash := Registry.fresh
    glxdhash := Registry.fresh
    winhash := Registry.fresh
    glExtensions := false
    symbolsLoaded := true
    fconfigAlive := true
    cleanupCalls := 0
    fconfigDeleteCalls := 0 }

/-- Every registry of the state is unallocated. -/
def registriesDead (s : FakerState) : Prop :=
  s.pmhash.allocated = false ∧ s.vishash.allocated = false ∧
  s.ctxhash.allocated = false ∧ s.glxdhash.allocated = false ∧
  s.winhash.allocated = false

/-- One step of the modelled process: a thread runs `safeExit`, the
static `GlobalCleanup` destructor runs, or application activity mutates
registries and the buffered extension string without touching the
shutdown flag, the config singleton or the teardown paths. -/
inductive Step : FakerState → FakerState → Prop where
  | safeExitStep (retcode : Int) (s : FakerState) : Step s (safeExit retcode s).1
  | dtorStep (s : FakerState) : Step s (globalCleanupDtor s)
  | appStep (s : FakerState) (p v c g w : Registry) (ext : Bool) :
      Step s { s with pmhash := p, vishash := v, ctxhash := c,
                      glxdhash := g, winhash := w, glExtensions := ext }

/-- Invariant giving at-most-once registry teardown: `cleanup()` has run
at most once, and not at all while `deadYet` is still false. -/
def CleanupInv (s : FakerState) : Prop :=
  s.cleanupCalls ≤ 1 ∧ (s.deadYet = false → s.cleanupCalls = 0)

/-! ## Definitions: faker.cpp per-thread state -/

/-- The per-thread interception state of faker.cpp:
`VGL_THREAD_LOCAL(FakerLevel, long, 0)` and
`VGL_THREAD_LOCAL(ExcludeCurrent, bool, false)`. -/
structure ThreadFakerState where
  fakerLevel : Int
  excludeCurrent : Bool
deriving DecidableEq

/-- `void _vgl_disableFaker(void)`: increment the thread's FakerLevel and
set ExcludeCurrent. -/
def _vgl_disableFaker (t : ThreadFakerState) : ThreadFakerState :=
  { fakerLevel := t.fakerLevel + 1, excludeCurrent := true }

/-- `void _vgl_enableFaker(void)`: decrement the thread's FakerLevel and
clear ExcludeCurrent. -/
def _vgl_enableFaker (t : ThreadFakerState) : ThreadFakerState :=
  { fakerLevel := t.fakerLevel - 1, excludeCurrent := false }

/-- The per-thread autotest state of faker.cpp: `AutotestColor`,
`AutotestRColor` and `AutotestFrame` (long, default -1),
`AutotestDisplay` (a `Display *`, default NULL — pointers are modelled as
naturals with 0 standing for NULL) and `AutotestDrawable` (long,
default 0). -/
structure AutotestState where
  display : Nat
  drawable : Int
  color : Int
  rcolor : Int
  frame : Int
deriving DecidableEq

/-- The default values the `VGL_THREAD_LOCAL` declarations give each
thread's autotest state. -/
def autotestDefaults : AutotestState :=
  { display := 0, drawable := 0, color := -1, rcolor := -1, frame := -1 }

/-- `int _vgl_getAutotestColor(Display *dpy, Drawable d, int right)`:
the stored (right-eye) color when `dpy` and `d` match the thread's
autotest display and drawable, else -1.  `right` is a C `int` used as a
truth value. -/
def _vgl_getAutotestColor (t : AutotestState) (dpy : Nat) (d : Int)
    (right : Int) : Int :=
  if t.display = dpy ∧ t.drawable = d then
    if right ≠ 0 then t.rcolor else t.color
  else -1

/-- `int _vgl_getAutotestFrame(Display *dpy, Drawable d)`: the stored
frame count when `dpy` and `d` match the thread's autotest display and
drawable, else -1. -/
def _vgl_getAutotestFrame (t : AutotestState) (dpy : Nat) (d : Int) : Int :=
  if t.display = dpy ∧ t.drawable = d then t.frame else -1

/-! ## Definitions: excluded-display matching -/

/-- The `while(excluded)` loop of `isDisplayStringExcluded`: walk the
`strtok` tokens and return true at the first case-insensitive match with
`name`. -/
def excludedLoop (name : List Char) : List (List Char) → Bool
  | [] => false
  | tok :: rest =>
    if strcasecmpEq name tok then true else excludedLoop name rest

/-- `bool isDisplayStringExcluded(char *name)` of faker.cpp, with the
`fconfig.excludeddpys` setting passed explicitly: split the excluded list
on commas, spaces and tabs with `strtok` and compare each token to `name`
with `strcasecmp`. -/
def isDisplayStringExcluded (name excludeddpys : List Char) : Bool :=
  excludedLoop name (strtokAll excludeddpys)

/-! ## Definitions: rrdisplayserverut.cpp test-harness CLI -/

/-- Modelled from the spec: the well-known default port for the plain
service (`RR_DEFAULTPORT`, defined in an rr header not among the sampled
sources; 4242 in the released headers). -/
def RR_DEFAULTPORT : Nat := 4242

/-- Modelled from the spec: the well-known default port for the
TLS-tunneled service (`RR_DEFAULTSSLPORT`, defined in an rr header not
among the sampled sources; 4243 in the released headers). -/
def RR_DEFAULTSSLPORT : Nat := 4243

/-- The argument scan of `main` in rrdisplayserverut.cpp: for each index,
an argument equal to "-ssl" (case-insensitive) sets `usessl`; an argument
whose first three characters match "-cl" that is not the last argument
records the next argument as the client name and skips it (`i++`). -/
def utScan : List String → Bool → Option String → Bool × Option String
  | [], usessl, clientname => (usessl, clientname)
  | a :: rest, usessl, clientname =>
    let usessl := usessl || strcasecmpEq a.toList ("-ssl".toList)
    match rest with
    | [] => (usessl, clientname)
    | b :: rest' =>
      if strniEq 3 a.toList ("-cl".toList) then utScan rest' usessl (some b)
      else utScan (b :: rest') usessl clientname

/-- Whether the harness turns SSL on for the given argument vector. -/
def utUseSSL (args : List String) : Bool :=
  (utScan args false none).1

/-- `port = usessl ? RR_DEFAULTSSLPORT : RR_DEFAULTPORT;`. -/
def utPort (args : List String) : Nat :=
  if utUseSSL args then RR_DEFAULTSSLPORT else RR_DEFAULTPORT

/-- The arguments the scan actually tests (the value consumed by a
"-cl…" option is skipped and never compared against "-ssl"). -/
def scannedArgs : List String → List String
  | [] => []
  | a :: rest =>
    match rest with
    | [] => [a]
    | b :: rest' =>
      if strniEq 3 a.toList ("-cl".toList) then a :: scannedArgs rest'
      else a :: scannedArgs (b :: rest')

/-- What a run of the harness does after argument handling: print the
usage message, or run the connect/send/disconnect cycles (iterations,
frames per iteration, port). -/
inductive UtOutcome where
  | usage : UtOutcome
  | run : Int → Int → Nat → UtOutcome
deriving DecidableEq

/-- The usage check of `main` in rrdisplayserverut.cpp:
`argc<3 || (iter=atoi(argv[1]))<1 || (frames=atoi(argv[2]))<1`. -/
def utMalformed (args : List String) : Prop :=
  args.length < 3 ∨ atoi (args.getD 1 "").toList < 1 ∨
    atoi (args.getD 2 "").toList < 1

instance (args : List String) : Decidable (utMalformed args) := by
  unfold utMalformed; infer_instance

/-- `main` of rrdisplayserverut.cpp, with the X11 and socket collaborators
abstracted as succeeding: malformed arguments print the usage message and
exit 1; otherwise the harness runs `atoi(argv[1])` iterations of
`atoi(argv[2])` frames against the selected port and exits 0. -/
def rrdisplayserverutMain (args : List String) : UtOutcome × Int :=
  if utMalformed args then
    (UtOutcome.usage, 1)
  else
    (UtOutcome.run (atoi (args.getD 1 "").toList) (atoi (args.getD 2 "").toList)
      (utPort args), 0)

/-! ## Helper lemmas -/

/-- `deadYet` is not reset by any single step. -/
theorem Step.deadYet_mono {s s' : FakerState} (h : Step s s')
    (hd : s.deadYet = true) : s'.deadYet = true := by
  cases h with
  | safeExitStep retcode s => simp [safeExit, hd]
  | dtorStep s => simp [globalCleanupDtor, fconfig_deleteinstance]
  | appStep s p v c g w ext => simpa using hd

theorem cleanupInv_step {s s' : FakerState} (h : Step s s')
    (hi : CleanupInv s) : CleanupInv s' := by
  obtain ⟨h1, h2⟩ := hi
  cases h with
  | safeExitStep retcode s =>
    by_cases hd : s.deadYet = false
    · have h0 := h2 hd
      constructor
      · simp [safeExit, hd, fconfig_deleteinstance, cleanup, h0]
      · intro hcontra
        simp [safeExit, hd, fconfig_deleteinstance, cleanup] at hcontra
    · constructor
      · simpa [safeExit, hd] using h1
      · intro hd'
        simp [safeExit, hd] at hd'
  | dtorStep s =>
    constructor
    · simpa [globalCleanupDtor, fconfig_deleteinstance] using h1
    · intro hcontra
      simp [globalCleanupDtor, fconfig_deleteinstance] at hcontra
  | appStep s p v c g w ext =>
    exact ⟨h1, h2⟩

theorem cleanupInv_trace {s : FakerState}
    (h : Relation.ReflTransGen Step initialFakerState s) : CleanupInv s := by
  induction h with
  | refl => exact ⟨by simp [initialFakerState], fun _ => by simp [initialFakerState]⟩
  | tail _ hstep ih => exact cleanupInv_step hstep ih

/-- A registry the guarded teardown has visited is unallocated. -/
theorem killIfAlloc_allocated (r : Registry) :
    (killIfAlloc r).allocated = false := by
  by_cases h : r.allocated <;>
    simp [killIfAlloc, Registry.isAlloc, Registry.kill, h]

/-- The token loop succeeds exactly when some token matches. -/
theorem excludedLoop_eq_true_iff (name : List Char) (toks : List (List Char)) :
    excludedLoop name toks = true ↔ ∃ tok ∈ toks, strcasecmpEq name tok = true := by
  induction toks with
  | nil => simp [excludedLoop]
  | cons t rest ih =>
    by_cases h : strcasecmpEq name t
    · simp [excludedLoop, h]
    · simp [excludedLoop, h, ih]

/-- The first component of the scan is the accumulator or-ed with an
"-ssl" test over exactly the scanned (non-skipped) arguments. -/
theorem utScan_fst : ∀ (args : List String) (usessl : Bool) (cl : Option String),
    (utScan args usessl cl).1 =
      (usessl || (scannedArgs args).any (fun a => strcasecmpEq a.toList ("-ssl".toList)))
  | [], usessl, cl => by simp [utScan, scannedArgs]
  | [a], usessl, cl => by simp [utScan, scannedArgs]
  | a :: b :: rest, usessl, cl => by
    simp only [utScan, scannedArgs]
    by_cases h : strniEq 3 a.toList ("-cl".toList) = true
    · rw [if_pos h, if_pos h]
      simp [utScan_fst rest, Bool.or_assoc]
    · rw [if_neg h, if_neg h]
      simp [utScan_fst (b :: rest), Bool.or_assoc]

/-! ## Claim theorems -/

/-- C1: `safeExit(retcode)` finding `deadYet` false under the critical
section sets `deadYet`, kills exactly the allocated registries, deletes
the configuration instance, runs each teardown exactly once, and exits
the process with code `retcode`; finding `deadYet` already true it leaves
the state untouched, performs no teardown, and terminates only the
calling thread. -/
theorem safeExit_exactly_once_shutdown (retcode : Int) (s : FakerState) :
    (s.deadYet = false →
      (safeExit retcode s).2 = Outcome.exitProcess retcode ∧
      (safeExit retcode s).1.deadYet = true ∧
      (safeExit retcode s).1.pmhash = killIfAlloc s.pmhash ∧
      (safeExit retcode s).1.vishash = killIfAlloc s.vishash ∧
      (safeExit retcode s).1.ctxhash = killIfAlloc s.ctxhash ∧
      (safeExit retcode s).1.glxdhash = killIfAlloc s.glxdhash ∧
      (safeExit retcode s).1.winhash = killIfAlloc s.winhash ∧
      registriesDead (safeExit retcode s).1 ∧
      (safeExit retcode s).1.fconfigAlive = false ∧
      (safeExit retcode s).1.cleanupCalls = s.cleanupCalls + 1 ∧
      (safeExit retcode s).1.fconfigDeleteCalls = s.fconfigDeleteCalls + 1) ∧
    (s.deadYet = true → safeExit retcode s = (s, Outcome.exitThread)) := by
  constructor
  · intro hd
    simp [safeExit, hd, fconfig_deleteinstance, cleanup, registriesDead,
      killIfAlloc_allocated]
  · intro hd
    simp [safeExit, hd]

/-- C1 at concrete states: from the fresh initial state `safeExit 3`
exits the process with code 3; once `deadYet` holds, `safeExit 5` only
terminates the calling thread. -/
theorem safeExit_exactly_once_shutdown_witness :
    (safeExit 3 initialFakerState).2 = Outcome.exitProcess 3 ∧
    safeExit 5 (globalCleanupDtor initialFakerState) =
      (globalCleanupDtor initialFakerState, Outcome.exitThread) :=
  ⟨((safeExit_exactly_once_shutdown 3 initialFakerState).1 (by decide)).1,
   (safeExit_exactly_once_shutdown 5 (globalCleanupDtor initialFakerState)).2
     (by decide)⟩

/-- C2: `deadYet` starts false, and no step — a `safeExit` call, the
`GlobalCleanup` destructor, or application activity — resets it, so along
any sequence of steps it stays true once set. -/
theorem deadYet_monotone :
    initialFakerState.deadYet = false ∧
    (∀ s s' : FakerState, Step s s' → s.deadYet = true → s'.deadYet = true) ∧
    (∀ s s' : FakerState, Relation.ReflTransGen Step s s' →
      s.deadYet = true → s'.deadYet = true) := by
  refine ⟨rfl, fun s s' h hd => h.deadYet_mono hd, fun s s' h => ?_⟩
  induction h with
  | refl => exact id
  | tail _ hstep ih => exact fun hd => hstep.deadYet_mono (ih hd)

/-- C2 at a concrete step: the flag set by one destructor run survives a
second step. -/
theorem deadYet_monotone_witness :
    (globalCleanupDtor (globalCleanupDtor initialFakerState)).deadYet = true :=
  deadYet_monotone.2.1 (globalCleanupDtor initialFakerState)
    (globalCleanupDtor (globalCleanupDtor initialFakerState))
    (Step.dtorStep (globalCleanupDtor initialFakerState)) (by decide)

/-- C3: the guarded teardown `if(isAlloc()) kill()` is idempotent, never
releases twice, is a no-op on a never-allocated registry, is total (no
error), and always leaves `isAllocated()` false. -/
theorem registry_kill_idempotent (r : Registry) :
    killIfAlloc (killIfAlloc r) = killIfAlloc r ∧
    (killIfAlloc r).allocated = false ∧
    (killIfAlloc (killIfAlloc r)).releases = (killIfAlloc r).releases ∧
    (killIfAlloc r).releases ≤ r.releases + 1 ∧
    (r.allocated = false → killIfAlloc r = r) := by
  by_cases h : r.allocated <;>
    simp [killIfAlloc, Registry.isAlloc, Registry.kill, h]

/-- C3 at concrete registries: a never-allocated registry is untouched
and an allocated one ends up unallocated. -/
theorem registry_kill_idempotent_witness :
    killIfAlloc Registry.fresh = Registry.fresh ∧
    (killIfAlloc { allocated := true, entries := [1, 2], releases := 0 }).allocated
      = false :=
  ⟨(registry_kill_idempotent Registry.fresh).2.2.2.2 rfl,
   (registry_kill_idempotent
     { allocated := true, entries := [1, 2], releases := 0 }).2.1⟩

/-- C4: `_vgl_disableFaker` increments the thread's FakerLevel and sets
ExcludeCurrent; `_vgl_enableFaker` decrements FakerLevel and — in
particular whenever the resulting depth is zero or below — leaves
ExcludeCurrent false; the depth goes negative without any error or
diagnostic. -/
theorem faker_disable_enable (t : ThreadFakerState) :
    _vgl_disableFaker t =
      { fakerLevel := t.fakerLevel + 1, excludeCurrent := true } ∧
    (_vgl_enableFaker t).fakerLevel = t.fakerLevel - 1 ∧
    ((_vgl_enableFaker t).fakerLevel ≤ 0 →
      (_vgl_enableFaker t).excludeCurrent = false) ∧
    (_vgl_enableFaker
      { fakerLevel := 0, excludeCurrent := t.excludeCurrent }).fakerLevel = -1 := by
  simp [_vgl_disableFaker, _vgl_enableFaker]

/-- C4 at a concrete thread state: enabling from depth 1 lands on depth 0
with the exclude flag cleared. -/
theorem faker_disable_enable_witness :
    (_vgl_enableFaker { fakerLevel := 1, excludeCurrent := true }).excludeCurrent
      = false :=
  (faker_disable_enable { fakerLevel := 1, excludeCurrent := true }).2.2.1
    (by decide)

/-- C5 as stated fails on the code: after `safeExit 0` has already torn
everything down from the initial state (and set `deadYet`), the
process-exit `GlobalCleanup` destructor still runs the configuration
deletion a second time — the destructor does not check `deadYet`, so this
teardown action runs twice in one process execution. -/
theorem globalCleanup_unguarded_cex :
    (safeExit 0 initialFakerState).1.deadYet = true ∧
    (safeExit 0 initialFakerState).1.fconfigDeleteCalls = 1 ∧
    (globalCleanupDtor (safeExit 0 initialFakerState).1).fconfigDeleteCalls = 2 := by
  decide

/-- C5 amended: the `GlobalCleanup` destructor is not guarded by
`deadYet` — it unconditionally deletes the configuration instance and
sets the flag, and it never runs the registry teardown `cleanup()`;
registry teardown still runs at most once per process because only
`safeExit` invokes it, under the `deadYet` check. -/
theorem globalCleanup_teardown_once (s : FakerState) :
    (globalCleanupDtor s).deadYet = true ∧
    (globalCleanupDtor s).fconfigDeleteCalls = s.fconfigDeleteCalls + 1 ∧
    (globalCleanupDtor s).cleanupCalls = s.cleanupCalls ∧
    (∀ s' : FakerState, Relation.ReflTransGen Step initialFakerState s' →
      s'.cleanupCalls ≤ 1) :=
  ⟨rfl, rfl, rfl, fun _ h => (cleanupInv_trace h).1⟩

/-- C5 (amended) at a concrete trace: two destructor runs from the
initial state still leave the registry-teardown count at most one. -/
theorem globalCleanup_teardown_once_witness :
    (globalCleanupDtor initialFakerState).deadYet = true ∧
    (globalCleanupDtor (globalCleanupDtor initialFakerState)).cleanupCalls ≤ 1 :=
  ⟨(globalCleanup_teardown_once initialFakerState).1,
   (globalCleanup_teardown_once initialFakerState).2.2.2
     (globalCleanupDtor (globalCleanupDtor initialFakerState))
     (Relation.ReflTransGen.tail
       (Relation.ReflTransGen.single (Step.dtorStep initialFakerState))
       (Step.dtorStep (globalCleanupDtor initialFakerState)))⟩

/-- C6: `isDisplayStringExcluded` splits the excluded list on commas,
spaces and tabs and returns true exactly when some token equals the
candidate name ignoring ASCII case; in particular "HOST1:0.0" is a member
of "host1:0.0, host2:1.0" and "host3:0.0" is not. -/
theorem isDisplayStringExcluded_matching :
    (∀ name list : List Char,
      isDisplayStringExcluded name list = true ↔
        ∃ tok ∈ strtokAll list, strcasecmpEq name tok = true) ∧
    isDisplayStringExcluded ("HOST1:0.0".toList)
      ("host1:0.0, host2:1.0".toList) = true ∧
    isDisplayStringExcluded ("host3:0.0".toList)
      ("host1:0.0, host2:1.0".toList) = false :=
  ⟨fun name list => excludedLoop_eq_true_iff name (strtokAll list),
   by decide, by decide⟩

/-- C7: the test harness prints its usage message and exits 1 exactly
when fewer than two positional arguments are given or either count parses
below 1; on well-formed arguments it runs `atoi(argv[1])` cycles of
`atoi(argv[2])` frames and exits 0. -/
theorem ut_usage_check (args : List String) :
    (utMalformed args → rrdisplayserverutMain args = (UtOutcome.usage, 1)) ∧
    (¬utMalformed args →
      rrdisplayserverutMain args =
        (UtOutcome.run (atoi (args.getD 1 "").toList)
          (atoi (args.getD 2 "").toList) (utPort args), 0)) ∧
    (utMalformed args ↔
      args.length < 3 ∨ atoi (args.getD 1 "").toList < 1 ∨
        atoi (args.getD 2 "").toList < 1) := by
  refine ⟨fun h => ?_, fun h => ?_, Iff.rfl⟩
  · simp [rrdisplayserverutMain, h]
  · simp [rrdisplayserverutMain, h]

/-- C7 at concrete argument vectors: a lone program name is rejected with
exit 1; "10 2" runs ten cycles of two frames on the plain port and exits
0. -/
theorem ut_usage_check_witness :
    rrdisplayserverutMain ["rrdisplayserverut"] = (UtOutcome.usage, 1) ∧
    rrdisplayserverutMain ["rrdisplayserverut", "10", "2"] =
      (UtOutcome.run 10 2 RR_DEFAULTPORT, 0) :=
  ⟨(ut_usage_check ["rrdisplayserverut"]).1 (by decide),
   ((ut_usage_check ["rrdisplayserverut", "10", "2"]).2.1 (by decide)).trans
     (by decide)⟩

/-- C8 as stated fails on the code: in the vector below an argument
case-insensitively equal to "-ssl" is present, yet the plain default port
is chosen, because that argument is consumed as the value of the
preceding "-client" option and the scan skips it. -/
theorem ut_ssl_skipped_cex :
    ["rrdisplayserverut", "5", "5", "-client", "-ssl"].any
      (fun a => strcasecmpEq a.toList ("-ssl".toList)) = true ∧
    utPort ["rrdisplayserverut", "5", "5", "-client", "-ssl"] = RR_DEFAULTPORT ∧
    RR_DEFAULTPORT ≠ RR_DEFAULTSSLPORT := by
  decide

/-- C8 amended: the chosen port is the TLS default port exactly when the
argument scan — which skips the argument consumed as the value of a
preceding "-cl…" option — meets an argument case-insensitively equal to
"-ssl", and otherwise the plain default port; the two default ports are
distinct. -/
theorem ut_port_scan (args : List String) :
    utPort args =
      (if (scannedArgs args).any (fun a => strcasecmpEq a.toList ("-ssl".toList))
       then RR_DEFAULTSSLPORT else RR_DEFAULTPORT) ∧
    RR_DEFAULTSSLPORT ≠ RR_DEFAULTPORT := by
  refine ⟨?_, by decide⟩
  simp [utPort, utUseSSL, utScan_fst args false none]

/-- C9: a disable/enable pair restores the thread's FakerLevel but always
leaves ExcludeCurrent false — even when it was true before the pair, so
the pair is an identity on the depth but not on the exclude flag. -/
theorem faker_disable_enable_pair (d : Int) (e : Bool) :
    _vgl_enableFaker (_vgl_disableFaker { fakerLevel := d, excludeCurrent := e }) =
      { fakerLevel := d, excludeCurrent := false } ∧
    _vgl_enableFaker (_vgl_disableFaker { fakerLevel := d, excludeCurrent := true })
      ≠ ({ fakerLevel := d, excludeCurrent := true } : ThreadFakerState) := by
  constructor
  · simp [_vgl_disableFaker, _vgl_enableFaker]
  · simp [_vgl_disableFaker, _vgl_enableFaker]

/-- C10: the autotest queries return -1 whenever the display or drawable
differs from the calling thread's stored pair; under the thread-local
defaults both return -1 for every call with a non-null display. -/
theorem getAutotest_mismatch (t : AutotestState) (dpy : Nat) (d right : Int) :
    ((dpy ≠ t.display ∨ d ≠ t.drawable) →
      _vgl_getAutotestColor t dpy d right = -1 ∧
      _vgl_getAutotestFrame t dpy d = -1) ∧
    (dpy ≠ 0 →
      _vgl_getAutotestColor autotestDefaults dpy d right = -1 ∧
      _vgl_getAutotestFrame autotestDefaults dpy d = -1) := by
  constructor
  · intro h
    have hc : ¬(t.display = dpy ∧ t.drawable = d) := by
      rcases h with h | h
      · exact fun hp => h hp.1.symm
      · exact fun hp => h hp.2.symm
    simp [_vgl_getAutotestColor, _vgl_getAutotestFrame, hc]
  · intro h
    have hc : ¬(autotestDefaults.display = dpy ∧ autotestDefaults.drawable = d) :=
      fun hp => h hp.1.symm
    simp [_vgl_getAutotestColor, _vgl_getAutotestFrame, hc]

/-- C10 at a concrete call: under the thread-local defaults a query for
display 7, drawable 0 yields -1 from both entry points. -/
theorem getAutotest_mismatch_witness :
    _vgl_getAutotestColor autotestDefaults 7 0 0 = -1 ∧
    _vgl_getAutotestFrame autotestDefaults 7 0 = -1 :=
  (getAutotest_mismatch autotestDefaults 7 0 0).2 (by decide)

end VGL
